import Mathlib

/-!
Verification of the step-program interpreter / multi-site scraping orchestrator
of the Valuador_vehiculos repository.

The development shallowly embeds the relevant Python code:
* `src/Backend/prueba scrap kavak.py` — `extract_kavak_details` (listing
  reconciliation with bounded retries) and its `norm` helper;
* `src/Backend/prueba scrap meli.py` — `extract_meli_details` (page
  accumulation with truncation to `max_publications`);
* `src/Backend/main.py` — `get_full_navigation_instruction` (template
  interpolation), `run_site_scraping` (one site task), the aggregation loop of
  `event_generator` (record normalization and the final event), and the
  producer/consumer progress channel (`log_status` / the drain loop).

External effects (the Stagehand browser agent, the network, the database) are
modelled as oracles supplied to the embedded functions: each agent call site in
the source corresponds to one oracle field holding either the call's result or
the exception it raised.  Python dictionaries are association lists of
`String × JValue`; Python machine floats produced by `float(...)` are modelled
as exact rationals (no claim depends on binary rounding).
-/

namespace Valuador

/-- JSON-like value: the shape of data exchanged with the browser agent and of
the scraped items. -/
inductive JValue where
  | str (s : String)
  | num (n : Int)
  | bool (b : Bool)
  | null
  | arr (elems : List JValue)
  | obj (fields : List (String × JValue))

/-- A Python dict with string keys, as used for scraped items. -/
abbrev Item := List (String × JValue)

/-- Python `str(v)` for the values that reach it in the embedded code.  The
textual form of nested containers is never inspected by any claim and is
abstracted to a placeholder. -/
def pyStr : JValue → String
  | .str s => s
  | .num n => toString n
  | .bool b => if b then "True" else "False"
  | .null => "None"
  | .arr _ => "[...]"
  | .obj _ => "[object]"

/-- Python truthiness of a value, as used by `if item:` / `if not listing_url:`. -/
def pyTruthy : JValue → Bool
  | .str s => s ≠ ""
  | .num n => n ≠ 0
  | .bool b => b
  | .null => false
  | .arr l => !l.isEmpty
  | .obj l => !l.isEmpty

/-- `item.get(k, dflt)`. -/
def itemGet (it : Item) (k : String) (dflt : JValue) : JValue :=
  (it.lookup k).getD dflt

/-- `item.get(k1, item.get(k2, dflt))`. -/
def itemGet2 (it : Item) (k1 k2 : String) (dflt : JValue) : JValue :=
  (it.lookup k1).getD ((it.lookup k2).getD dflt)

/-- `item.get(k1, item.get(k2, item.get(k3, dflt)))`. -/
def itemGet3 (it : Item) (k1 k2 k3 : String) (dflt : JValue) : JValue :=
  (it.lookup k1).getD ((it.lookup k2).getD ((it.lookup k3).getD dflt))

/-- `item[k] = v` on a Python dict: replaces the value when the key exists,
otherwise appends the binding at the end (insertion order is preserved). -/
def setKey (it : Item) (k : String) (v : JValue) : Item :=
  if it.any (fun kv => kv.1 == k) then
    it.map (fun kv => if kv.1 == k then (k, v) else kv)
  else it ++ [(k, v)]

/-- Whether `pat` occurs at the head of `cs`. -/
def headMatch : List Char → List Char → Bool
  | [], _ => true
  | _ :: _, [] => false
  | a :: xs, b :: ys => a == b && headMatch xs ys

/-- Whether `pat` occurs anywhere in `cs`. -/
def hasSubChars (pat : List Char) : List Char → Bool
  | [] => headMatch pat []
  | c :: rest => headMatch pat (c :: rest) || hasSubChars pat rest

/-- `pat in s` (Python substring test). -/
def containsSub (s pat : String) : Bool :=
  hasSubChars pat.data s.data

/-- Python `str.upper()` (ASCII, which is all the code upcases). -/
def pyToUpper (s : String) : String :=
  String.mk (s.data.map Char.toUpper)

/-- A progress event as enqueued by `log_status` (type `status`) and
`send_error` (type `error`, optionally carrying a screenshot). -/
inductive Event where
  | status (message : String)
  | error (message : String) (screenshot : Option String)
deriving DecidableEq

/-- Number of `error` events in a trace. -/
def errorCount (evs : List Event) : Nat :=
  (evs.filter (fun e => match e with | .error _ _ => true | _ => false)).length

/-! ## The kavak module: `extract_kavak_details` (prueba scrap kavak.py)

`norm` is the normalization used by the reconciliation check, and the retry
loop (`for attempt in range(3)`) is driven per vehicle by a list of
`AttemptResult`s describing what the agent did on each attempt. -/

/-- `norm` from `prueba scrap kavak.py` line 130: the `re.sub` that deletes
every character outside ASCII letters and digits from `str(s)`, followed by
`.lower()`.  (Letters such as a unit suffix `km` survive the substitution.) -/
def norm (s : String) : String :=
  String.mk ((s.data.filter Char.isAlphanum).map Char.toLower)

/-- The reconciliation test of lines 130-135: both the year pair and the km
pair must be equal after `norm` (`year_match and km_match`).  The summary's
fields are `v_data.get("year", "")` / `v_data.get("km", "")` and the detail's
are `item.get("year", "")` / `item.get("km", "")`, each passed through
`str(...)` by `norm`. -/
def year_km_match (summary detail : Item) : Bool :=
  let ly := pyStr (itemGet summary "year" (.str ""))
  let lk := pyStr (itemGet summary "km" (.str ""))
  let dy := pyStr (itemGet detail "year" (.str ""))
  let dk := pyStr (itemGet detail "km" (.str ""))
  (norm ly == norm dy) && (norm lk == norm dk)

/-- What the agent did on one reconciliation attempt for one vehicle:
the re-navigation raised (`exnBeforeOpen`), the open/extract raised after the
"Abriendo detalle" notification (`exnAfterOpen`), or the detail extract
returned (`extracted`, with `none` for a falsy result). -/
inductive AttemptResult where
  | exnBeforeOpen (msg : String)
  | exnAfterOpen (msg : String)
  | extracted (item : Option Item)

/-- One vehicle of the listing together with the agent's behaviour on its
successive reconciliation attempts. -/
abbrev VehicleInput := Item × List AttemptResult

/-- The accepted detail record for one vehicle, following the attempt loop of
lines 84-145: attempts are consumed in order; an attempt that raised or whose
extract was falsy is retried; an extracted item is accepted (and retrying
stops) exactly when `year_km_match` holds, otherwise the loop retries.  The
caller passes the attempt list already truncated by `range(3)`. -/
def vehicleResult (summary : Item) : List AttemptResult → Option Item
  | [] => none
  | .extracted (some d) :: rs =>
      if year_km_match summary d then some d else vehicleResult summary rs
  | .extracted none :: rs => vehicleResult summary rs
  | .exnBeforeOpen _ :: rs => vehicleResult summary rs
  | .exnAfterOpen _ :: rs => vehicleResult summary rs

/-- The progress notifications emitted inside the attempt loop for vehicle
number `i` (1-based): "Abriendo detalle" before the open/extract, the
"Detalle" line after a successful extract, and the mismatch warning (with the
1-based attempt number) when validation fails. -/
def attemptEvents (i : Nat) (summary : Item) : Nat → List AttemptResult → List Event
  | _, [] => []
  | a, .exnBeforeOpen _ :: rs => attemptEvents i summary (a + 1) rs
  | a, .exnAfterOpen _ :: rs =>
      .status ("🔍 Abriendo detalle del vehículo #" ++ toString i ++ "...")
        :: attemptEvents i summary (a + 1) rs
  | a, .extracted none :: rs =>
      .status ("🔍 Abriendo detalle del vehículo #" ++ toString i ++ "...")
        :: attemptEvents i summary (a + 1) rs
  | a, .extracted (some d) :: rs =>
      .status ("🔍 Abriendo detalle del vehículo #" ++ toString i ++ "...")
        :: .status ("📄 Detalle: " ++ pyStr (itemGet d "year" (.str "")) ++ " | "
              ++ pyStr (itemGet d "km" (.str "")))
        :: (if year_km_match summary d then []
            else .status ("⚠️ Datos no coinciden en vehículo #" ++ toString i
                   ++ " (Intento " ++ toString (a + 1) ++ ").")
              :: attemptEvents i summary (a + 1) rs)

/-- Items accumulated by the vehicle loop (lines 77-148): each vehicle
contributes its accepted detail record or nothing; an unvalidated vehicle is
only logged and the loop continues with the next one. -/
def kavakItems (vs : List VehicleInput) : List Item :=
  (vs.map (fun p => (vehicleResult p.1 (p.2.take 3)).toList)).flatten

/-- Events of the vehicle loop, with 1-based numbering `i` out of `n`. -/
def kavakLoopEvents (n : Nat) : Nat → List VehicleInput → List Event
  | _, [] => []
  | i, (v, rs) :: rest =>
      .status ("🖱️ Procesando vehículo #" ++ toString i ++ " de " ++ toString n ++ "...")
        :: attemptEvents i v 0 (rs.take 3)
        ++ kavakLoopEvents n (i + 1) rest

/-- The instruction of the initial listing extract (line 47): the configured
limit `max_publications` appears only inside this natural-language text; the
code never truncates the returned vehicle list with it. -/
def listingsInstruction (maxPubs : Nat) : String :=
  "Localiza la lista principal de resultados (ignora anuncios y recomendados). "
    ++ "Extrae el título, año y kilometraje (solo el número, interpretando \x27k\x27 "
    ++ "como mil, ej: 136k km = 136000) de los primeros " ++ toString maxPubs
    ++ " vehículos."

/-- Result of `extract_kavak_details`: the listing instruction it sent, the
progress notifications, and the accepted items. -/
structure ModuleRun where
  instruction : String
  events : List Event
  items : List Item

/-- `extract_kavak_details` (lines 21-150).  `listings` is the outcome of the
initial listing extract: an exception (caught; `vehicles = []`, so the loop
runs zero times and no notification fires), or the vehicle list each paired
with the agent's behaviour on its reconciliation attempts.  An empty vehicle
list notifies and returns `[]`; otherwise the count is notified and the
per-vehicle retry loop runs over every returned vehicle. -/
def extract_kavak_details (maxPubs : Nat)
    (listings : Except String (List VehicleInput)) : ModuleRun :=
  match listings with
  | .error _ => ⟨listingsInstruction maxPubs, [], []⟩
  | .ok [] =>
      ⟨listingsInstruction maxPubs,
        [.status "⚠️ No se encontraron vehículos en el listado de resultados."], []⟩
  | .ok vs =>
      ⟨listingsInstruction maxPubs,
        .status ("📊 TOTAL IDENTIFICADO: " ++ toString vs.length ++ " publicaciones.")
          :: kavakLoopEvents vs.length 1 vs,
        kavakItems vs⟩

/-! ## URL joining and numeric cleaning helpers (main.py) -/

/-- `urllib.parse.urljoin(base, raw)` for the shapes produced here: an empty
href keeps the base; an absolute href (containing a scheme separator) replaces
it; a root-relative href is resolved against the base's origin; any other
relative href replaces the last path segment of the base. -/
def urljoin (base raw : String) : String :=
  if raw = "" then base
  else if containsSub raw "://" then raw
  else
    match base.splitOn "://" with
    | [scheme, rest] =>
        let host := String.mk (rest.data.takeWhile (fun c => c ≠ '/'))
        let origin := scheme ++ "://" ++ host
        if raw.startsWith "/" then origin ++ raw
        else
          let path := String.mk (rest.data.drop host.length)
          let dir := String.intercalate "/" ((path.splitOn "/").dropLast)
          origin ++ dir ++ "/" ++ raw
    | _ => raw

/-- Value of a digit list read in base 10 (most significant first). -/
def natOfDigits (l : List Char) : Nat :=
  l.foldl (fun a c => a * 10 + (c.toNat - 48)) 0

/-- The filtering step of `clean_num` (main.py lines 567-572):
`"".join(c for c in str(v).replace(',', '.') if c.isdigit() or c == '.')`. -/
def cleanChars (s : String) : String :=
  String.mk ((s.data.map (fun c => if c == ',' then '.' else c)).filter
    (fun c => c.isDigit || c == '.'))

/-- Python `float(s)` on a string made only of digits and dots, as exact
rational: defined exactly when the string has at most one dot and at least one
digit; binary floating-point rounding is abstracted away (no claim depends on
it). -/
def pyFloatOfClean : String → Option ℚ := fun s =>
  let cs := s.data
  let dots := (cs.filter (fun c => c == '.')).length
  if cs.any Char.isDigit && dots ≤ 1 then
    let ip := cs.takeWhile (fun c => c ≠ '.')
    let fp := (cs.dropWhile (fun c => c ≠ '.')).drop 1
    some ((natOfDigits ip : ℚ) + (natOfDigits fp : ℚ) / ((10 : ℚ) ^ fp.length))
  else none

/-- `clean_num` (main.py lines 567-572): filter the stringified value, then
`float(...)` with every failure (empty string, malformed number) collapsed to
`0.0` by the surrounding `try`/`if s`. -/
def clean_num (v : JValue) : ℚ :=
  match pyFloatOfClean (cleanChars (pyStr v)) with
  | some q => q
  | none => 0

/-- `int(clean_num(v))`: truncation toward zero of the non-negative rational. -/
def clean_num_int (v : JValue) : Nat :=
  (clean_num v).floor.toNat

/-! ## The mercadolibre module: `extract_meli_details` (prueba scrap meli.py)

The page loop (lines 40-86) accumulates candidate vehicles page by page and
truncates the accumulated list to `max_publications` as soon as it reaches
that length; the detail loop (lines 88-122) then visits each collected
vehicle's URL. -/

/-- One round of the page loop: the listing extract raised (caught and
logged; nothing accumulated that round) or returned a vehicle list. -/
inductive PageResult where
  | exn (msg : String)
  | vehicles (vs : List Item)

/-- The page-accumulation loop of lines 40-86.  Each successful extract
extends the accumulator; when the accumulator reaches `maxPubs` it is
truncated with `all_vehicles[:max_publications]` and the loop breaks.  The
`has_next` pagination check is modelled by the remaining page list: the loop
also breaks when no further page exists. -/
def meliCollect (maxPubs : Nat) : List PageResult → List Item → List Item
  | [], acc => acc
  | .exn _ :: ps, acc => meliCollect maxPubs ps acc
  | .vehicles vs :: ps, acc =>
      if maxPubs ≤ (acc ++ vs).length then (acc ++ vs).take maxPubs
      else meliCollect maxPubs ps (acc ++ vs)

/-- The detail loop of lines 88-122 over the collected vehicles, with 1-based
index `i` (`enumerate(all_vehicles, 1)`).  A vehicle with a falsy `url` is
skipped; otherwise the detail extract for it (oracle `detail`) either raised
(caught and logged) or returned an item, which is kept — with its `link` key
set to the joined URL — when truthy. -/
def meliDetailLoop (resultsUrl : String) (detail : Nat → Except String (Option Item)) :
    Nat → List Item → List Item
  | _, [] => []
  | i, v :: vs =>
      let rest := meliDetailLoop resultsUrl detail (i + 1) vs
      let u := itemGet v "url" .null
      if pyTruthy u then
        match detail i with
        | .ok (some it) => setKey it "link" (.str (urljoin resultsUrl (pyStr u))) :: rest
        | _ => rest
      else rest

/-- `extract_meli_details` (lines 21-123): collect candidate vehicles across
pages, truncated to `max_publications`, then run the detail loop. -/
def extract_meli_details (maxPubs : Nat) (resultsUrl : String)
    (pages : List PageResult) (detail : Nat → Except String (Option Item)) : List Item :=
  meliDetailLoop resultsUrl detail 1 (meliCollect maxPubs pages [])

/-! ## Navigation instructions and template interpolation (main.py 338-376)

A custom template is a sequence of literal and placeholder parts — the
shallow form of a Python format string, a placeholder being a brace-wrapped
name; `pyFormat` is `str.format`, which raises `KeyError` at the first
placeholder missing from the keyword bindings. -/

/-- One part of a format template: literal text or a named placeholder. -/
inductive TmplPart where
  | lit (s : String)
  | var (name : String)

/-- `template.format(**binds)`: substitute each placeholder left to right,
failing with the name of the first unbound placeholder (Python `KeyError`). -/
def pyFormat : List TmplPart → List (String × String) → Except String String
  | [], _ => .ok ""
  | .lit s :: ps, binds => (pyFormat ps binds).map (fun r => s ++ r)
  | .var n :: ps, binds =>
      match binds.lookup n with
      | some v => (pyFormat ps binds).map (fun r => v ++ r)
      | none => .error n

/-- The canned kavak navigation instruction (main.py 349-357). -/
def kavakNavInstr (brand model : String) (year : Int) : String :=
  "1. Si aparece un cartel de cookies o selección de país/región, acéptalo o ciérralo.\n"
    ++ "2. Asegúrate de estar en la sección de compra de autos o categoria de Vehiculos (Marketplace). Si estás en la home, busca el botón \x27Comprar un auto\x27, Categoria \x27Vehiculos\x27 o similar.\n"
    ++ "3. Verificar si se observan los filtros de búsqueda, en caso de que no se hallen hacer clic en la barra de búsqueda (entry point) para ver filtros si corresponde CASO CONTRARIO NO HACER NADA.\n"
    ++ "REGLA CRÍTICA: Si no encuentras el valor exacto solicitado para CUALQUIERA de los filtros (Marca, Modelo, etc.), DETÉN el proceso inmediatamente. No intentes seleccionar valores similares ni continúes con el resto de los pasos.\n"
    ++ "4. Aplica los filtros: Marca (puede tener otros nombres considerar todas las variantes posibles): \x27" ++ brand
    ++ "\x27, Modelo (puede tener otros nombres considerar todas las variantes posibles): \x27" ++ model
    ++ "\x27, Año (puede tener otros nombres considerar todas las variantes posibles): \x27" ++ toString year
    ++ "\x27 y Disponibilidad de auto (puede tener otros nombres considerar todas las variantes posibles): \x27Disponible\x27 (o similar). "
    ++ "Los filtros pueden aparecer como botones, enlaces o listas desplegables. Busca específicamente el botón o enlace con el texto \x27" ++ toString year
    ++ "\x27. Si no lo ves, expande la sección correspondiente o busca un botón de \x27Ver más\x27.\n"
    ++ "6. Ordenar las publicaciones por \x27Relevancia\x27.\n"
    ++ "7. Haz scroll para cargar los resultados."

/-- The canned mercadolibre navigation instruction (main.py 358-374). -/
def meliNavInstr (brand model : String) (year : Int) : String :=
  "OBJETIVO: Encontrar un vehículo " ++ brand ++ " " ++ model ++ " usado del año "
    ++ toString year ++ ", evitando accesorios o repuestos.\n\n"
    ++ "PASOS:\n1. BÚSQUEDA INICIAL: Localiza el buscador principal en la parte superior (header) y escribe \x27"
    ++ brand ++ " " ++ model ++ "\x27. Presiona Enter o haz clic en la lupa para buscar.\n\n"
    ++ "2. FILTRO DE CONDICIÓN: En la barra lateral, busca la sección de \x27Condición\x27 y selecciona específicamente \x27Usado\x27.\n\n"
    ++ "3. FILTRO DE AÑO: Busca la sección \x27Año\x27 en los filtros laterales.\n"
    ++ "- Selecciona exactamente el año \x27" ++ toString year ++ "\x27.\n"
    ++ "- Si no ves el año \x27" ++ toString year
    ++ "\x27 en la lista, haz clic en \x27Mostrar más\x27 o \x27Ver todos\x27 dentro de esa sección hasta encontrarlo.\n\n"
    ++ "4. VERIFICACIÓN FINAL:\n- Si aparece un mensaje de \x27No hay publicaciones que coincidan\x27, informa \x27Sin stock\x27.\n"
    ++ "- Si hay resultados, realiza un scroll suave para asegurar que se carguen las unidades y confirma que el catálogo sea de vehículos reales.\n"

/-- The fallback instruction for other domains (main.py 375-376). -/
def genericNavInstr (brand model : String) (year : Int) : String :=
  "4. Busca y filtra por Marca \x27" ++ brand ++ "\x27, Modelo \x27" ++ model
    ++ "\x27 y Año \x27" ++ toString year ++ "\x27.\n5. Haz scroll para cargar resultados."

/-- The default-instruction dispatch of `get_full_navigation_instruction`
(`"kavak" in domain` / `"mercadolibre" in domain` / otherwise). -/
def defaultNavInstruction (domain brand model : String) (year : Int) : Except String String :=
  if containsSub domain "kavak" then .ok (kavakNavInstr brand model year)
  else if containsSub domain "mercadolibre" then .ok (meliNavInstr brand model year)
  else .ok (genericNavInstr brand model year)

/-- `get_full_navigation_instruction` (main.py 338-376): a truthy custom
template is rendered with `format(marca=brand, modelo=model, anio=year,
version=version)` (an unbound placeholder raises `KeyError`); a `None` or
empty template falls through to the canned per-domain instruction. -/
def get_full_navigation_instruction (domain brand model : String) (year : Int)
    (version : String) (custom_template : Option (List TmplPart)) : Except String String :=
  match custom_template with
  | some t =>
      if t.isEmpty then defaultNavInstruction domain brand model year
      else pyFormat t
        [("marca", brand), ("modelo", model), ("anio", toString year), ("version", version)]
  | none => defaultNavInstruction domain brand model year

/-! ## Python call binding (for the module call sites of main.py 508-515) -/

/-- Whether a Python call with `nPos` positional arguments and keyword
arguments `kws` binds against a function whose parameters are `params`, the
last `numDefaults` of which have default values.  Binding fails (a
`TypeError`) when there are more positional arguments than parameters, a
keyword does not name a parameter, a keyword targets a positionally filled
parameter, or a parameter without a default stays unfilled. -/
def pythonCallBindsOk (params : List String) (numDefaults nPos : Nat)
    (kws : List String) : Bool :=
  decide (nPos ≤ params.length)
    && kws.all (fun k => params.contains k)
    && kws.all (fun k => decide (nPos ≤ params.indexOf k))
    && (List.range (params.length - numDefaults)).all
         (fun j => decide (j < nPos) || kws.contains (params.getD j ""))

/-- Parameters of `extract_kavak_details` (prueba scrap kavak.py line 21):
nine parameters, the last three with defaults. -/
def kavakParams : List String :=
  ["client_sync", "sess_id", "results_url", "max_publications", "target_version",
   "model_name", "custom_instruction", "custom_fields", "progress_callback"]

/-- Parameters of `extract_meli_details` (prueba scrap meli.py line 21):
six parameters, none with a default. -/
def meliParams : List String :=
  ["client_sync", "sess_id", "results_url", "max_publications", "target_version",
   "model_name"]

/-- Both module call sites in `run_site_scraping` (main.py 508-515) pass eight
positional arguments ... -/
def moduleCallPositional : Nat := 8

/-- ... plus the keyword argument `progress_callback`. -/
def moduleCallKeywords : List String := ["progress_callback"]

/-! ## The site task: `run_site_scraping` (main.py 431-527) -/

/-- The run parameters of the `ScrapeRequest` that `run_site_scraping` reads.
The custom navigation instructions are format templates. -/
structure ScrapeRequest where
  brand : String
  model : String
  year : Int
  version : String
  nav_instr_kavak : Option (List TmplPart)
  nav_instr_meli : Option (List TmplPart)
  custom_fields : List String

/-- Oracle for one site task's external calls: each field is the outcome of
the corresponding agent call site in `run_site_scraping` (`.error` meaning the
call raised with that message). -/
structure SiteEnv where
  /-- Stagehand client construction, `sessions.start` and the initial
  `sessions.navigate` (main.py 438-452) — not guarded by any `try`. -/
  startup : Except String Unit
  /-- The guarded `sessions.execute` of the navigation instruction (462-469). -/
  executeNav : Except String Unit
  /-- The screenshot captured inside the error handler (472-475), `none` when
  that nested attempt itself failed. -/
  screenshot : Option String
  /-- The `has_results` validation extract (481-485): exception, or the value
  of the `has_results` field (`none` when the field is missing). -/
  checkResult : Except String (Option Bool)
  /-- The current-URL extract (494-498): exception, or the `url` field. -/
  urlResult : Except String (Option String)
  /-- Kavak detail phase: the listing extract and per-vehicle agent attempts
  consumed by `extract_kavak_details`. -/
  kavak : Except String (List VehicleInput)
  /-- Mercadolibre page-loop oracle for `extract_meli_details`. -/
  meliPages : List PageResult
  /-- Mercadolibre detail-extract oracle for `extract_meli_details`. -/
  meliDetail : Nat → Except String (Option Item)

/-- Return value of a site task as seen by the aggregation loop:
the `"ERROR"` sentinel, the `"NO_RESULTS"` sentinel, the
site/autos dict, or an uncaught exception
(absorbed by `asyncio.gather(..., return_exceptions=True)`). -/
inductive SiteOutcome where
  | errorSentinel
  | noResults
  | ok (site : String) (autos : List Item)
  | exn (msg : String)

/-- Observable result of running one site task: its return value, the
progress events it emitted, and whether it ended its browser session and
closed its client. -/
structure TaskRun where
  outcome : SiteOutcome
  events : List Event
  sessionEnded : Bool
  clientClosed : Bool

/-- The per-module progress callback wrapper of main.py 509/514:
`lambda m: progress_callback(f"[SITE] m")`. -/
def prefixEvent (site : String) : Event → Event
  | .status m => .status ("[" ++ pyToUpper site ++ "] " ++ m)
  | e => e

/-- The common tail of a successfully returning site task (main.py 519-527):
end the session, close the client, notify whether anything was extracted, and
return the site dict. -/
def finishTask (site : String) (items : List Item) (evs : List Event) : TaskRun :=
  { outcome := .ok site items,
    events := evs ++ [if items.isEmpty then
        Event.status ("⚠️ [" ++ pyToUpper site ++ "] No se extrajeron publicaciones.")
      else Event.status ("✅ [" ++ pyToUpper site ++ "] Extracción finalizada.")],
    sessionEnded := true,
    clientClosed := true }

/-- Template selection of main.py 455: `nav_instr_kavak` when `"kavak" in
site_name`, else `nav_instr_meli`. -/
def navTemplateFor (req : ScrapeRequest) (site : String) : Option (List TmplPart) :=
  if containsSub site "kavak" then req.nav_instr_kavak else req.nav_instr_meli

/-- `run_site_scraping` (main.py 431-527), step by step:
initial notification; client/session startup and navigate (uncaught on
failure); instruction interpolation (uncaught `KeyError` on an unbound
placeholder); the guarded navigation execute, whose failure sends one error
event and returns the `"ERROR"` sentinel without releasing the session; the
`has_results` validation, returning the `"NO_RESULTS"` sentinel (after
ending the session) when false or missing; the current-URL extract; then the
per-site detail module — called with eight positional arguments plus
`progress_callback`, so the call itself is subject to Python argument
binding — and the common cleanup tail. -/
def run_site_scraping (req : ScrapeRequest) (site targetUrl : String)
    (env : SiteEnv) : TaskRun :=
  let ev0 := [Event.status ("🌐 [" ++ pyToUpper site ++ "] Iniciando Agente...")]
  match env.startup with
  | .error m =>
      { outcome := .exn m, events := ev0, sessionEnded := false, clientClosed := false }
  | .ok _ =>
    match get_full_navigation_instruction site req.brand req.model req.year req.version
        (navTemplateFor req site) with
    | .error name =>
        { outcome := .exn ("KeyError: " ++ name), events := ev0,
          sessionEnded := false, clientClosed := false }
    | .ok _instr =>
      let ev1 := ev0 ++ [Event.status ("🤖 [" ++ pyToUpper site ++ "] Agente IA navegando...")]
      match env.executeNav with
      | .error m =>
          { outcome := .errorSentinel,
            events := ev1 ++ [Event.error ("Error en " ++ site ++ ": " ++ m) env.screenshot],
            sessionEnded := false, clientClosed := false }
      | .ok _ =>
        let ev2 := ev1 ++ [Event.status ("🧐 [" ++ pyToUpper site ++ "] Verificando resultados...")]
        match env.checkResult with
        | .error m =>
            { outcome := .exn m, events := ev2, sessionEnded := false, clientClosed := false }
        | .ok hasResults =>
          if hasResults.getD false then
            match env.urlResult with
            | .error m =>
                { outcome := .exn m, events := ev2, sessionEnded := false, clientClosed := false }
            | .ok urlField =>
              let currentUrl := urlField.getD targetUrl
              let ev3 := ev2 ++
                [Event.status ("✅ [" ++ pyToUpper site ++ "] Resultados confirmados. Extrayendo...")]
              if containsSub site "kavak" then
                if pythonCallBindsOk kavakParams 3 moduleCallPositional moduleCallKeywords then
                  let mr := extract_kavak_details 5 env.kavak
                  finishTask site mr.items (ev3 ++ mr.events.map (prefixEvent site))
                else
                  { outcome := .exn "TypeError: extract_kavak_details()", events := ev3,
                    sessionEnded := false, clientClosed := false }
              else if containsSub site "mercadolibre" then
                if pythonCallBindsOk meliParams 0 moduleCallPositional moduleCallKeywords then
                  let items := extract_meli_details 5 currentUrl env.meliPages env.meliDetail
                  finishTask site items ev3
                else
                  { outcome := .exn "TypeError: extract_meli_details() takes 6 positional arguments but 8 were given",
                    events := ev3, sessionEnded := false, clientClosed := false }
              else
                finishTask site []
                  (ev3 ++ [Event.status ("⚠️ [" ++ pyToUpper site ++ "] No soportado.")])
          else
            { outcome := .noResults,
              events := ev2 ++ [Event.status ("❌ [" ++ pyToUpper site ++ "] Sin resultados.")],
              sessionEnded := true,
              clientClosed := true }

/-! ## The aggregation loop and the final event (main.py 546-659) -/

/-- The aggregation step over one site result (main.py 551-559): a task that
ended in an exception is only logged; the `"NO_RESULTS"` / `"ERROR"`
sentinels are skipped; otherwise `items = raw_results.get("autos", [])` and
`site = raw_results.get("site", "Desconocido").lower()` feed the per-item
normalization.  When applied directly to a raw value (the claims quantify
over arbitrary extraction outputs), `.get("autos", [])` reads only that one
key: defined as the list under `"autos"` when present, the empty default when
absent, and undefined (`none`) outside the shapes the tasks produce (a
non-dict raises `AttributeError` at `.get`; site tasks always store a list
under `"autos"`). -/
def siteResultItems (raw : JValue) : Option (List JValue) :=
  match raw with
  | .obj kvs =>
      match kvs.lookup "autos" with
      | some (.arr xs) => some xs
      | some _ => none
      | none => some []
  | _ => none

/-- The ordered container-key list named by the spec. -/
def containerKeys : List String := ["autos", "items", "results", "data"]

/-- Modelled from the spec: the deterministic unwrap precedence of spec
section 6 on already-parsed values (its step (1), stripping code fences and
parsing a JSON string, precedes this): a list is used as is; an object is
scanned for the first list-valued key among `containerKeys`; anything else
becomes a one-element list.  Stated only to compare the spec's claimed
normalization with `siteResultItems`, the one the code performs. -/
def specUnwrap : JValue → List JValue
  | .arr xs => xs
  | .obj kvs =>
      match (containerKeys.filterMap (fun k =>
          match kvs.lookup k with
          | some (.arr xs) => some xs
          | _ => none)).head? with
      | some xs => xs
      | none => [.obj kvs]
  | v => [v]

/-- The field names of the standard record schema, including synonyms
(main.py 583-588). -/
def standard_keys : List String :=
  ["title", "titulo", "year", "año", "km", "kilometraje", "precio", "price",
   "precio_contado", "moneda", "currency", "combustible", "transmision",
   "marca", "brand", "modelo", "model", "version", "ubicacion", "zona",
   "url", "link", "fecha_publicacion", "reservado"]

/-- `SITE_URLS` (main.py 50-53). -/
def siteUrls : List (String × String) :=
  [("kavak", "https://www.kavak.com/ar"),
   ("mercadolibre", "https://www.mercadolibre.com.ar/")]

/-- Python `str.capitalize()`: first character uppercased, the rest
lowercased. -/
def pyCapitalize (s : String) : String :=
  match s.data with
  | [] => ""
  | c :: rest => String.mk (c.toUpper :: rest.map Char.toLower)

/-- One normalized record of `extracted_data` (main.py 594-607). -/
structure Record where
  brand : String
  model : String
  version : String
  year : Nat
  km : Nat
  price : ℚ
  currency : String
  price_ars : ℚ
  title : String
  combustible : String
  transmision : String
  zona : String
  fecha_publicacion : String
  reservado : Bool
  custom_data : List (String × JValue)
  url : String
  site : String

/-- The per-item normalization of the aggregation loop (main.py 564-607):
price / currency / year / km cleaning, synonym lookups with the request's
values as defaults, the `custom_data` sub-dict of explicitly requested
non-standard fields, and the joined URL. -/
def mkRecord (rate : ℚ) (req : ScrapeRequest) (siteName : String) (it : Item) : Record :=
  let price := clean_num (itemGet3 it "precio" "price" "precio_contado" (.num 0))
  let currency := pyToUpper (pyStr (itemGet2 it "moneda" "currency" (.str "ARS")))
  let rawLink := pyStr (itemGet2 it "link" "url" (.str ""))
  { brand := pyStr (itemGet2 it "marca" "brand" (.str req.brand)),
    model := pyStr (itemGet2 it "modelo" "model" (.str req.model)),
    version := pyStr (itemGet it "version" (.str "N/A")),
    year := clean_num_int (itemGet2 it "año" "year" (.num req.year)),
    km := clean_num_int (itemGet2 it "km" "kilometraje" (.num 0)),
    price := price,
    currency := currency,
    price_ars := if currency = "USD" then price * rate else price,
    title := pyStr (itemGet2 it "titulo" "title" (.str "N/A")),
    combustible := pyStr (itemGet it "combustible" (.str "N/A")),
    transmision := pyStr (itemGet it "transmision" (.str "N/A")),
    zona := pyStr (itemGet2 it "zona" "ubicacion" (.str "N/A")),
    fecha_publicacion := pyStr (itemGet it "fecha_publicacion" (.str "N/A")),
    reservado := pyTruthy (itemGet it "reservado" (.bool false)),
    custom_data := it.filter (fun kv =>
      req.custom_fields.contains kv.1 && !standard_keys.contains kv.1),
    url := urljoin ((siteUrls.lookup siteName).getD "") rawLink,
    site := pyCapitalize siteName }

/-- Records contributed by one site outcome to `extracted_data`: the
normalized items of a returned site dict; nothing for the sentinels or an
absorbed exception. -/
def recordsOfOutcome (rate : ℚ) (req : ScrapeRequest) : SiteOutcome → List Record
  | .ok site autos => autos.map (mkRecord rate req site)
  | _ => []

/-- `extracted_data` after the aggregation loop over all site results, in
task order. -/
def collectRecords (rate : ℚ) (req : ScrapeRequest) (outs : List SiteOutcome) : List Record :=
  (outs.map (recordsOfOutcome rate req)).flatten

/-- The terminal `final` event of the stream (main.py 648-659). -/
structure FinalEvent where
  status : String
  data : List Record
  average_price : ℚ
  count : Nat
  message : String

/-- Construction of the final event (main.py 617-659): `success` with the
full record list and its stats when anything was extracted, `empty`
otherwise.  (The `error` status is produced only by the outer exception
handler, which no site-task failure can trigger: task exceptions are absorbed
by `gather(..., return_exceptions=True)`.) -/
def finalEvent (rate : ℚ) (req : ScrapeRequest) (outs : List SiteOutcome) : FinalEvent :=
  let recs := collectRecords rate req outs
  if recs.isEmpty then
    { status := "empty", data := [], average_price := 0, count := 0,
      message := "No se encontraron publicaciones válidas." }
  else
    let pos := recs.filter (fun r => decide (0 < r.price_ars))
    { status := "success", data := recs,
      average_price :=
        if pos.isEmpty then 0
        else (pos.map (fun r => r.price_ars)).sum / (pos.length : ℚ),
      count := recs.length,
      message := "Se extrajeron " ++ toString recs.length ++ " publicaciones exitosamente." }

/-! ## The progress channel (main.py 414-423 and 536-543)

Producers are the site-task threads: `log_status` / `send_error` enqueue with
`loop.call_soon_threadsafe(queue.put_nowait, ...)` — a non-blocking enqueue
into an unbounded `asyncio.Queue` — and a task finishes only after its
enqueues are scheduled.  The consumer is the drain loop
`while any(not t.done() for t in tasks) or not queue.empty()`, which yields
each dequeued event once, and the terminal `final` event is yielded only
after that loop exits.  The model is a transition system: each task holds the
list of events it has yet to enqueue (a task is finished when that list is
empty), the queue and the delivered trace are lists, and `finalSent` records
the terminal event. -/

/-- State of the progress channel plus its producers and consumer. -/
structure ChanState where
  tasks : List (List Event)
  queue : List Event
  delivered : List Event
  finalSent : Bool
deriving DecidableEq

/-- Steps of the channel system: a producer enqueues its next event (always
enabled — `put_nowait` never blocks); the consumer dequeues and delivers the
head of the queue; the consumer emits the terminal event exactly when every
producer has finished and the queue is drained (the exit condition of the
drain loop). -/
inductive ChanStep : ChanState → ChanState → Prop
  | produce (s : ChanState) (i : Nat) (e : Event) (rest : List Event)
      (h : s.tasks.get? i = some (e :: rest)) :
      ChanStep s { s with tasks := s.tasks.set i rest, queue := s.queue ++ [e] }
  | consume (s : ChanState) (e : Event) (q : List Event)
      (h : s.queue = e :: q) :
      ChanStep s { s with queue := q, delivered := s.delivered ++ [e] }
  | finish (s : ChanState)
      (ht : ∀ t ∈ s.tasks, t = []) (hq : s.queue = []) (hf : s.finalSent = false) :
      ChanStep s { s with finalSent := true }

/-- Initial state: every task still has its whole event list to produce. -/
def chanInit (ts : List (List Event)) : ChanState :=
  { tasks := ts, queue := [], delivered := [], finalSent := false }

/-- Reachability in the channel system. -/
def ChanReachable (ts : List (List Event)) (s : ChanState) : Prop :=
  Relation.ReflTransGen ChanStep (chanInit ts) s

/-- All event occurrences of a state, wherever they sit: delivered, queued,
or still pending inside a producer. -/
def chanTotal (s : ChanState) : Multiset Event :=
  ((s.delivered ++ s.queue ++ s.tasks.flatten : List Event) : Multiset Event)

/-! ## Concrete fixtures used by witnesses and counterexamples -/

/-- A listing summary as captured by the kavak listing extract. -/
def sumItem : Item :=
  [("title", .str "Toyota Corolla"), ("year", .str "2021"), ("km", .str "136000")]

/-- A detail extraction whose km differs from the summary only by punctuation. -/
def detailPunct : Item :=
  [("year", .str "2021"), ("km", .str "136,000")]

/-- A detail extraction whose km carries a textual unit suffix. -/
def detailUnit : Item :=
  [("year", .str "2021"), ("km", .str "136,000 km")]

/-- A detail extraction matching `sumItem` exactly. -/
def detailExact : Item :=
  [("year", .str "2021"), ("km", .str "136000"),
   ("precio_contado", .num 5000), ("moneda", .str "USD"),
   ("title", .str "Toyota Corolla"), ("url", .str "https://www.kavak.com/ar/x")]

/-- A detail extraction for a different vehicle (mismatching year and km). -/
def detailOther : Item :=
  [("year", .str "2019"), ("km", .str "70000")]

/-- A vehicle whose reconciliation succeeds on the first attempt. -/
def vehicleOk : VehicleInput :=
  (sumItem, [.extracted (some detailExact)])

/-- A vehicle whose three reconciliation attempts all return a mismatching
detail page. -/
def vehicleBad : VehicleInput :=
  (sumItem,
   [.extracted (some detailOther), .extracted (some detailOther),
    .extracted (some detailOther)])

/-- A plain run request with no custom templates. -/
def reqBase : ScrapeRequest :=
  { brand := "toyota", model := "corolla", year := 2021, version := "1.8",
    nav_instr_kavak := none, nav_instr_meli := none, custom_fields := [] }

/-- A run request whose custom kavak navigation template uses the unbound
placeholder `brand` (the bound names are `marca`, `modelo`, `anio`,
`version`). -/
def reqTemplate : ScrapeRequest :=
  { reqBase with nav_instr_kavak := some [TmplPart.var "brand"] }

/-- An environment whose site task completes normally with four reconciled
kavak records. -/
def envOkKavak : SiteEnv :=
  { startup := .ok (), executeNav := .ok (), screenshot := none,
    checkResult := .ok (some true),
    urlResult := .ok (some "https://www.kavak.com/ar/usados"),
    kavak := .ok [vehicleOk, vehicleOk, vehicleOk, vehicleOk],
    meliPages := [], meliDetail := fun _ => .error "unused" }

/-- An environment whose guarded navigation `execute` raises immediately. -/
def envExecFail : SiteEnv :=
  { startup := .ok (), executeNav := .error "Agent session crashed",
    screenshot := some "screenshotdata",
    checkResult := .ok none, urlResult := .ok none, kavak := .ok [],
    meliPages := [], meliDetail := fun _ => .error "unused" }

/-- An environment whose `has_results` validation extract raises. -/
def envCheckExn : SiteEnv :=
  { startup := .ok (), executeNav := .ok (), screenshot := none,
    checkResult := .error "extract failed", urlResult := .ok none, kavak := .ok [],
    meliPages := [], meliDetail := fun _ => .error "unused" }

/-- An environment whose validation reports no results. -/
def envNoResults : SiteEnv :=
  { startup := .ok (), executeNav := .ok (), screenshot := none,
    checkResult := .ok (some false), urlResult := .ok none, kavak := .ok [],
    meliPages := [], meliDetail := fun _ => .error "unused" }

/-- An environment that reaches the detail-extraction phase of a
mercadolibre task. -/
def envMeliReady : SiteEnv :=
  { startup := .ok (), executeNav := .ok (), screenshot := none,
    checkResult := .ok (some true),
    urlResult := .ok (some "https://autos.mercadolibre.com.ar/x"),
    kavak := .ok [], meliPages := [PageResult.vehicles [detailExact]],
    meliDetail := fun _ => .ok (some detailExact) }

/-- Producer event lists for the channel witness. -/
def c9ts : List (List Event) :=
  [[Event.status "a"], [Event.status "b"]]

/-- Channel state after the first producer enqueued its event. -/
def c9s1 : ChanState :=
  { tasks := [[], [Event.status "b"]], queue := [Event.status "a"],
    delivered := [], finalSent := false }

/-- Channel state after both producers enqueued. -/
def c9s2 : ChanState :=
  { tasks := [[], []], queue := [Event.status "a", Event.status "b"],
    delivered := [], finalSent := false }

/-- Channel state after the consumer delivered the first event. -/
def c9s3 : ChanState :=
  { tasks := [[], []], queue := [Event.status "b"],
    delivered := [Event.status "a"], finalSent := false }

/-- Channel state after the consumer delivered both events. -/
def c9s4 : ChanState :=
  { tasks := [[], []], queue := [],
    delivered := [Event.status "a", Event.status "b"], finalSent := false }

/-- Channel state after the terminal event. -/
def c9final : ChanState :=
  { tasks := [[], []], queue := [],
    delivered := [Event.status "a", Event.status "b"], finalSent := true }

end Valuador

namespace Valuador

/-! ## Shared helper lemmas -/

theorem extract_kavak_items (m : Nat) (vs : List VehicleInput) :
    (extract_kavak_details m (.ok vs)).items = kavakItems vs := by
  cases vs <;> rfl

theorem vehicleResult_none_of_noMatch (v : Item) (l : List AttemptResult)
    (h : ∀ d : Item, AttemptResult.extracted (some d) ∈ l → year_km_match v d = false) :
    vehicleResult v l = none := by
  induction l with
  | nil => rfl
  | cons r rs ih =>
    cases r with
    | exnBeforeOpen m =>
        exact ih (fun d hd => h d (List.mem_cons_of_mem _ hd))
    | exnAfterOpen m =>
        exact ih (fun d hd => h d (List.mem_cons_of_mem _ hd))
    | extracted o =>
      cases o with
      | none => exact ih (fun d hd => h d (List.mem_cons_of_mem _ hd))
      | some d =>
        have hm := h d (List.mem_cons_self _ _)
        simp only [vehicleResult, hm, if_false, Bool.false_eq_true]
        exact ih (fun d hd => h d (List.mem_cons_of_mem _ hd))

theorem kavakItems_drop_unmatched (pre suf : List VehicleInput) (v : Item)
    (rs : List AttemptResult) (h : vehicleResult v (rs.take 3) = none) :
    kavakItems (pre ++ (v, rs) :: suf) = kavakItems (pre ++ suf) := by
  simp [kavakItems, h]

/-! ## Claim C4 -/

/-- C4 (counterexample): with the summary km `"136000"` and a detail km
`"136,000 km"`, `norm` keeps the letters of the unit (`"136000km"` vs
`"136000"`), the comparison fails, and the first-attempt extraction is NOT
accepted — refuting the claim that this pair compares equal and the item is
accepted on the first attempt. -/
theorem claim_C4_counterexample :
    norm "136,000 km" = "136000km"
    ∧ norm "136000" = "136000"
    ∧ year_km_match sumItem detailUnit = false
    ∧ vehicleResult sumItem [.extracted (some detailUnit)] = none := by
  exact ⟨rfl, rfl, rfl, rfl⟩

/-- C4 (amended): the normalization strips punctuation and whitespace but
keeps letters, so `"136,000"` normalizes equal to `"136000"` while
`"136,000 km"` does not; whenever both normalized pairs compare equal the
reconciliation accepts the detail record on that very attempt. -/
theorem claim_C4 (summary detail : Item) (rs : List AttemptResult)
    (h : year_km_match summary detail = true) :
    vehicleResult summary (.extracted (some detail) :: rs) = some detail
    ∧ norm "136,000" = norm "136000"
    ∧ norm "2021" = norm "2021"
    ∧ norm "136,000 km" ≠ norm "136000" := by
  refine ⟨?_, rfl, rfl, by decide⟩
  simp [vehicleResult, h]

/-- C4 witness: the amended theorem applied to the summary
`year "2021", km "136000"` and the detail `year "2021", km "136,000"`. -/
theorem claim_C4_witness :
    year_km_match sumItem detailPunct = true
    ∧ vehicleResult sumItem [.extracted (some detailPunct)] = some detailPunct :=
  ⟨rfl, (claim_C4 sumItem detailPunct [] rfl).1⟩

/-! ## Claim C2 -/

/-- C2: the kavak reconciliation consults at most the first three attempt
outcomes per vehicle; a detail record enters the output only when its
normalized year and km both equal the summary's; a vehicle none of whose
three attempts produces a matching detail contributes nothing, and the
remaining vehicles are processed exactly as if it were absent (their
successfully reconciled items still appear). -/
theorem claim_C2 (maxPubs : Nat) (pre suf : List VehicleInput) (v : Item)
    (rs : List AttemptResult)
    (h : ∀ d : Item, AttemptResult.extracted (some d) ∈ rs.take 3 →
      year_km_match v d = false) :
    (extract_kavak_details maxPubs (.ok (pre ++ (v, rs) :: suf))).items
      = (extract_kavak_details maxPubs (.ok (pre ++ suf))).items
    ∧ vehicleResult v (rs.take 3) = none
    ∧ (∀ (w : Item) (l : List AttemptResult),
        (extract_kavak_details maxPubs (.ok [(w, l)])).items
          = (vehicleResult w (l.take 3)).toList)
    ∧ (∀ (w : Item) (l : List AttemptResult) (d : Item),
        vehicleResult w l = some d → year_km_match w d = true) := by
  have hnone : vehicleResult v (rs.take 3) = none :=
    vehicleResult_none_of_noMatch v _ h
  refine ⟨?_, hnone, ?_, ?_⟩
  · rw [extract_kavak_items, extract_kavak_items]
    exact kavakItems_drop_unmatched pre suf v rs hnone
  · intro w l
    rw [extract_kavak_items]
    simp [kavakItems]
  · intro w l d hl
    induction l with
    | nil => simp [vehicleResult] at hl
    | cons r lr ih =>
      cases r with
      | exnBeforeOpen m => exact ih hl
      | exnAfterOpen m => exact ih hl
      | extracted o =>
        cases o with
        | none => exact ih hl
        | some d' =>
          by_cases hm : year_km_match w d' = true
          · simp only [vehicleResult, hm, if_true] at hl
            cases hl
            exact hm
          · simp only [vehicleResult, hm, if_false] at hl
            exact ih hl

/-- C2 witness: with one healthy vehicle before and one after, a vehicle
whose three attempts all mismatch is absent while both healthy vehicles'
records appear. -/
theorem claim_C2_witness :
    (∀ d : Item, AttemptResult.extracted (some d) ∈ vehicleBad.2.take 3 →
      year_km_match sumItem d = false)
    ∧ (extract_kavak_details 5 (.ok [vehicleOk, vehicleBad, vehicleOk])).items
        = (extract_kavak_details 5 (.ok [vehicleOk, vehicleOk])).items
    ∧ (extract_kavak_details 5 (.ok [vehicleOk, vehicleBad, vehicleOk])).items
        = [detailExact, detailExact] := by
  have h : ∀ d : Item, AttemptResult.extracted (some d) ∈ vehicleBad.2.take 3 →
      year_km_match sumItem d = false := by
    intro d hd
    simp only [vehicleBad, List.take, List.mem_cons, List.not_mem_nil, or_false] at hd
    rcases hd with h1 | h1 | h1 <;>
      · cases h1
        rfl
  exact ⟨h, (claim_C2 5 [vehicleOk] [vehicleOk] sumItem vehicleBad.2 h).1, rfl⟩

/-! ## Claim C5 -/

/-- C5 (counterexample): the kavak vehicle loop does not truncate — with
`max_publications = 3` and a listing extract returning 10 vehicles (each
reconciling on its first attempt), all 10 are processed and 10 items are
returned, refuting "at most `limit` items are processed". -/
theorem claim_C5_counterexample :
    ((extract_kavak_details 3 (.ok (List.replicate 10 vehicleOk))).items).length = 10
    ∧ ¬(10 ≤ 3) :=
  ⟨by rfl, by decide⟩

theorem meliCollect_length_le (m : Nat) (ps : List PageResult) (acc : List Item)
    (hacc : acc.length ≤ m) : (meliCollect m ps acc).length ≤ m := by
  induction ps generalizing acc with
  | nil => simpa [meliCollect] using hacc
  | cons p ps ih =>
    cases p with
    | exn msg => exact ih acc hacc
    | vehicles vs =>
      by_cases hle : m ≤ (acc ++ vs).length
      · simp only [meliCollect, if_pos hle, List.length_take]
        exact min_le_left _ _
      · simp only [meliCollect, if_neg hle]
        exact ih _ (le_of_lt (lt_of_not_ge hle))

theorem meliDetailLoop_length_le (u : String) (d : Nat → Except String (Option Item))
    (i : Nat) (vs : List Item) :
    (meliDetailLoop u d i vs).length ≤ vs.length := by
  induction vs generalizing i with
  | nil => simp [meliDetailLoop]
  | cons v vs ih =>
    simp only [meliDetailLoop, List.length_cons]
    by_cases ht : pyTruthy (itemGet v "url" .null)
    · simp only [if_pos ht]
      cases hd : d i with
      | error m =>
          exact le_trans (ih (i + 1)) (Nat.le_succ _)
      | ok o =>
        cases o with
        | none => exact le_trans (ih (i + 1)) (Nat.le_succ _)
        | some it =>
            simpa using Nat.succ_le_succ (ih (i + 1))
    · simp only [if_neg ht]
      exact le_trans (ih (i + 1)) (Nat.le_succ _)

/-- C5 (amended): the mercadolibre extraction truncates the accumulated
candidate list to `max_publications` before per-item processing, so it
processes and returns at most `limit` items; the kavak extraction passes the
limit only inside its extraction-instruction text and iterates over every
candidate the extraction returned — its output does not depend on the limit
at all. -/
theorem claim_C5 (m : Nat) (u : String) (ps : List PageResult)
    (d : Nat → Except String (Option Item)) :
    (meliCollect m ps []).length ≤ m
    ∧ (extract_meli_details m u ps d).length ≤ m
    ∧ (∀ (mp mp' : Nat) (l : Except String (List VehicleInput)),
        (extract_kavak_details mp l).items = (extract_kavak_details mp' l).items) := by
  have hc : (meliCollect m ps []).length ≤ m :=
    meliCollect_length_le m ps [] (by simp)
  refine ⟨hc, ?_, ?_⟩
  · exact le_trans (meliDetailLoop_length_le u d 1 _) hc
  · intro mp mp' l
    cases l with
    | error m => rfl
    | ok vs => rw [extract_kavak_items, extract_kavak_items]

/-! ## Claim C8 -/

/-- C8 (counterexample): on the raw object with the single key `"foo"` the
aggregation's normalization (`raw_results.get("autos", [])`) yields the empty
list, not the one-element list containing the object that the claimed unwrap
precedence requires. -/
theorem claim_C8_counterexample :
    siteResultItems (.obj [("foo", .str "bar")]) = some []
    ∧ specUnwrap (.obj [("foo", .str "bar")]) = [.obj [("foo", .str "bar")]]
    ∧ ([] : List JValue).length ≠ [JValue.obj [("foo", JValue.str "bar")]].length :=
  ⟨rfl, rfl, by decide⟩

/-- C8 (amended): the aggregation reads only the fixed key `"autos"` from the
per-site result object — the list stored under `"autos"` when present, the
empty default when the key is absent; the other container keys named by the
spec are ignored and no single-object wrapping (nor any string parsing)
occurs. -/
theorem claim_C8 (xs : List JValue) (kvs : List (String × JValue)) :
    siteResultItems (.obj (("autos", .arr xs) :: kvs)) = some xs
    ∧ siteResultItems (.obj [("items", .arr xs)]) = some []
    ∧ siteResultItems (.obj [("results", .arr xs)]) = some []
    ∧ siteResultItems (.obj [("data", .arr xs)]) = some []
    ∧ siteResultItems (.obj []) = some [] := by
  refine ⟨?_, rfl, rfl, rfl, rfl⟩
  simp [siteResultItems, List.lookup]

/-! ## Event-counting helper lemmas -/

theorem errorCount_nil : errorCount [] = 0 := rfl

theorem errorCount_status_cons (m : String) (l : List Event) :
    errorCount (.status m :: l) = errorCount l := by
  simp [errorCount]

theorem errorCount_error_cons (m : String) (sc : Option String) (l : List Event) :
    errorCount (.error m sc :: l) = errorCount l + 1 := by
  simp [errorCount, List.filter]

theorem errorCount_append (a b : List Event) :
    errorCount (a ++ b) = errorCount a + errorCount b := by
  simp [errorCount, List.filter_append]

theorem errorCount_attemptEvents (i : Nat) (v : Item) (a : Nat)
    (rs : List AttemptResult) : errorCount (attemptEvents i v a rs) = 0 := by
  induction rs generalizing a with
  | nil => rfl
  | cons r rs ih =>
    cases r with
    | exnBeforeOpen m => simpa [attemptEvents] using ih (a + 1)
    | exnAfterOpen m =>
        simpa [attemptEvents, errorCount_status_cons] using ih (a + 1)
    | extracted o =>
      cases o with
      | none => simpa [attemptEvents, errorCount_status_cons] using ih (a + 1)
      | some d =>
        by_cases hm : year_km_match v d = true
        · simp [attemptEvents, hm, errorCount_status_cons, errorCount_nil]
        · simp only [attemptEvents, Bool.not_eq_true] at hm ⊢
          simp [hm, errorCount_status_cons, ih (a + 1)]

theorem errorCount_kavakLoopEvents (n i : Nat) (vs : List VehicleInput) :
    errorCount (kavakLoopEvents n i vs) = 0 := by
  induction vs generalizing i with
  | nil => rfl
  | cons p rest ih =>
    obtain ⟨v, rs⟩ := p
    simp [kavakLoopEvents, errorCount_status_cons, errorCount_append,
      errorCount_attemptEvents, ih (i + 1)]

theorem errorCount_kavakModule (m : Nat) (l : Except String (List VehicleInput)) :
    errorCount (extract_kavak_details m l).events = 0 := by
  cases l with
  | error e => rfl
  | ok vs =>
    cases vs with
    | nil => rfl
    | cons v vs =>
        simp [extract_kavak_details, errorCount_status_cons, errorCount_kavakLoopEvents]

theorem errorCount_map_prefixEvent (site : String) (evs : List Event) :
    errorCount (evs.map (prefixEvent site)) = errorCount evs := by
  induction evs with
  | nil => rfl
  | cons e l ih =>
    cases e <;>
      simp [prefixEvent, errorCount_status_cons, errorCount_error_cons, ih]

theorem errorCount_finishTask (site : String) (items : List Item) (evs : List Event) :
    errorCount (finishTask site items evs).events = errorCount evs := by
  cases hb : items.isEmpty <;>
    simp [finishTask, hb, errorCount_append, errorCount_status_cons, errorCount_nil]

/-! ## Claim C3 -/

/-- C3: when the validation extract succeeds but its `has_results` field is
`false` (or missing, so that `.get("has_results", False)` defaults to
`False`), the site task returns the non-error `NO_RESULTS` outcome after the
"Sin resultados" status event, with the session ended and the client closed;
the detail-extraction phase never runs (the task result is independent of the
detail-phase oracles) and the task contributes exactly the output accumulated
so far — which is empty, as the validation precedes all extraction. -/
theorem claim_C3 (req : ScrapeRequest) (site url : String) (env : SiteEnv) (rate : ℚ)
    (instr : String) (hr : Option Bool)
    (h1 : env.startup = .ok ())
    (h2 : get_full_navigation_instruction site req.brand req.model req.year req.version
            (navTemplateFor req site) = .ok instr)
    (h3 : env.executeNav = .ok ())
    (h4 : env.checkResult = .ok hr)
    (h5 : hr.getD false = false) :
    (run_site_scraping req site url env).outcome = .noResults
    ∧ (run_site_scraping req site url env).sessionEnded = true
    ∧ (run_site_scraping req site url env).clientClosed = true
    ∧ (run_site_scraping req site url env).events =
        [.status ("🌐 [" ++ pyToUpper site ++ "] Iniciando Agente..."),
         .status ("🤖 [" ++ pyToUpper site ++ "] Agente IA navegando..."),
         .status ("🧐 [" ++ pyToUpper site ++ "] Verificando resultados..."),
         .status ("❌ [" ++ pyToUpper site ++ "] Sin resultados.")]
    ∧ (∀ (k : Except String (List VehicleInput)) (p : List PageResult)
          (d : Nat → Except String (Option Item)),
        run_site_scraping req site url
            { env with kavak := k, meliPages := p, meliDetail := d }
          = run_site_scraping req site url env)
    ∧ recordsOfOutcome rate req (run_site_scraping req site url env).outcome = [] := by
  refine ⟨?_, ?_, ?_, ?_, ?_, ?_⟩
  · simp [run_site_scraping, h1, h2, h3, h4, h5]
  · simp [run_site_scraping, h1, h2, h3, h4, h5]
  · simp [run_site_scraping, h1, h2, h3, h4, h5]
  · simp [run_site_scraping, h1, h2, h3, h4, h5]
  · intro k p d
    simp [run_site_scraping, h1, h2, h3, h4, h5]
  · simp [run_site_scraping, h1, h2, h3, h4, h5, recordsOfOutcome]

/-- C3 witness: a kavak task whose validation returns `has_results = false`
halts with the `NO_RESULTS` outcome. -/
theorem claim_C3_witness :
    envNoResults.checkResult = .ok (some false)
    ∧ (some false).getD false = false
    ∧ (run_site_scraping reqBase "kavak" "https://www.kavak.com/ar" envNoResults).outcome
        = .noResults :=
  ⟨rfl, rfl,
    (claim_C3 reqBase "kavak" "https://www.kavak.com/ar" envNoResults 1
      (kavakNavInstr "toyota" "corolla" 2021) (some false) rfl (by rfl) rfl rfl rfl).1⟩

/-! ## Claim C6 -/

/-- C6: evaluation of the site task on its error exits.  When the guarded
navigation `execute` raises, the task returns the `ERROR` sentinel (emitting
its one error event) WITHOUT ending the browser session or closing the
client; an exception in the validation extract likewise escapes without
cleanup; only the no-results early exit and normal completion end the session
and close the client.  This exhibits the code-level violation of the claimed
"released on every exit path" discipline. -/
theorem claim_C6 :
    (run_site_scraping reqBase "kavak" "https://www.kavak.com/ar" envExecFail).outcome
      = .errorSentinel
    ∧ (run_site_scraping reqBase "kavak" "https://www.kavak.com/ar" envExecFail).sessionEnded
        = false
    ∧ (run_site_scraping reqBase "kavak" "https://www.kavak.com/ar" envExecFail).clientClosed
        = false
    ∧ errorCount (run_site_scraping reqBase "kavak" "https://www.kavak.com/ar" envExecFail).events
        = 1
    ∧ (run_site_scraping reqBase "kavak" "https://www.kavak.com/ar" envCheckExn).sessionEnded
        = false
    ∧ (run_site_scraping reqBase "kavak" "https://www.kavak.com/ar" envCheckExn).clientClosed
        = false
    ∧ (run_site_scraping reqBase "kavak" "https://www.kavak.com/ar" envNoResults).sessionEnded
        = true
    ∧ (run_site_scraping reqBase "kavak" "https://www.kavak.com/ar" envOkKavak).sessionEnded
        = true
    ∧ (run_site_scraping reqBase "kavak" "https://www.kavak.com/ar" envOkKavak).clientClosed
        = true :=
  ⟨by rfl, by rfl, by rfl, by rfl, by rfl, by rfl, by rfl, by rfl, by rfl⟩

/-! ## Claim C7 -/

/-- C7 (counterexample): a custom kavak template consisting of the unbound
placeholder `brand` aborts the whole site task with an uncaught `KeyError`
right after the first status event: the step is not skipped, no skip status
event is emitted, and nothing further of that site's program executes —
refuting "only that step is affected ... execution continues with the next
step". -/
theorem claim_C7_counterexample :
    run_site_scraping reqTemplate "kavak" "https://www.kavak.com/ar" envOkKavak
      = { outcome := .exn "KeyError: brand",
          events := [.status "🌐 [KAVAK] Iniciando Agente..."],
          sessionEnded := false, clientClosed := false } := rfl

/-- C7 (amended): a step template with an unbound placeholder raises an
uncaught `KeyError` that aborts the entire site task before the agent
navigation begins — exactly one status event was emitted, no error event and
no skip notification is produced, and the session is never released; for
templates whose placeholders are all bound, the interpolation that reaches
the agent call is the template with the literal context values substituted. -/
theorem claim_C7 (req : ScrapeRequest) (site url : String) (env : SiteEnv)
    (t : List TmplPart) (n : String)
    (h0 : env.startup = .ok ())
    (h1 : navTemplateFor req site = some t)
    (h2 : t ≠ [])
    (h3 : pyFormat t [("marca", req.brand), ("modelo", req.model),
            ("anio", toString req.year), ("version", req.version)] = .error n) :
    (run_site_scraping req site url env).outcome = .exn ("KeyError: " ++ n)
    ∧ (run_site_scraping req site url env).events
        = [.status ("🌐 [" ++ pyToUpper site ++ "] Iniciando Agente...")]
    ∧ (run_site_scraping req site url env).sessionEnded = false
    ∧ (run_site_scraping req site url env).clientClosed = false
    ∧ errorCount (run_site_scraping req site url env).events = 0
    ∧ (∀ (t' : List TmplPart) (r : String), t' ≠ [] →
        pyFormat t' [("marca", req.brand), ("modelo", req.model),
          ("anio", toString req.year), ("version", req.version)] = .ok r →
        get_full_navigation_instruction site req.brand req.model req.year req.version
          (some t') = .ok r) := by
  have hne : t.isEmpty = false := by
    cases t with
    | nil => exact absurd rfl h2
    | cons a l => rfl
  refine ⟨?_, ?_, ?_, ?_, ?_, ?_⟩
  · simp [run_site_scraping, h0, h1, h3, get_full_navigation_instruction, hne]
  · simp [run_site_scraping, h0, h1, h3, get_full_navigation_instruction, hne]
  · simp [run_site_scraping, h0, h1, h3, get_full_navigation_instruction, hne]
  · simp [run_site_scraping, h0, h1, h3, get_full_navigation_instruction, hne]
  · simp [run_site_scraping, h0, h1, h3, get_full_navigation_instruction, hne,
      errorCount_status_cons, errorCount_nil]
  · intro t' r ht' hfmt
    have hne' : t'.isEmpty = false := by
      cases t' with
      | nil => exact absurd rfl ht'
      | cons a l => rfl
    simp [get_full_navigation_instruction, hne', hfmt]

theorem errorCount_ite_status (c : Prop) [Decidable c] (a b : String) (l : List Event) :
    errorCount ((if c then Event.status a else Event.status b) :: l) = errorCount l := by
  by_cases h : c <;> simp [h, errorCount_status_cons]

/-! ## Claim C10 -/

/-- C10: the orchestrator invokes `extract_meli_details` with eight
positional arguments plus the keyword `progress_callback` (nine in all),
while the function declares only six parameters, so Python argument binding
fails: whenever a mercadolibre task reaches its detail phase it raises a
`TypeError` before any listing extraction occurs (the task result does not
depend on the listing/detail oracles), the task contributes no records, and
the aggregated run still completes — the final event over the remaining
outcomes is unchanged by the failed site. -/
theorem claim_C10 (req : ScrapeRequest) (url : String) (env : SiteEnv) (rate : ℚ)
    (instr : String) (u : Option String)
    (h1 : env.startup = .ok ())
    (h2 : get_full_navigation_instruction "mercadolibre" req.brand req.model req.year
            req.version (navTemplateFor req "mercadolibre") = .ok instr)
    (h3 : env.executeNav = .ok ())
    (h4 : env.checkResult = .ok (some true))
    (h5 : env.urlResult = .ok u) :
    moduleCallPositional + moduleCallKeywords.length = 9
    ∧ meliParams.length = 6
    ∧ pythonCallBindsOk meliParams 0 moduleCallPositional moduleCallKeywords = false
    ∧ (run_site_scraping req "mercadolibre" url env).outcome
        = .exn "TypeError: extract_meli_details() takes 6 positional arguments but 8 were given"
    ∧ (∀ (k : Except String (List VehicleInput)) (p : List PageResult)
          (d : Nat → Except String (Option Item)),
        run_site_scraping req "mercadolibre" url
            { env with kavak := k, meliPages := p, meliDetail := d }
          = run_site_scraping req "mercadolibre" url env)
    ∧ recordsOfOutcome rate req (run_site_scraping req "mercadolibre" url env).outcome = []
    ∧ (∀ outs : List SiteOutcome,
        finalEvent rate req ((run_site_scraping req "mercadolibre" url env).outcome :: outs)
          = finalEvent rate req outs) := by
  have hk : containsSub "mercadolibre" "kavak" = false := by rfl
  have hm : containsSub "mercadolibre" "mercadolibre" = true := by rfl
  have hb : pythonCallBindsOk meliParams 0 moduleCallPositional moduleCallKeywords = false := by
    rfl
  have houtcome : (run_site_scraping req "mercadolibre" url env).outcome
      = .exn "TypeError: extract_meli_details() takes 6 positional arguments but 8 were given" := by
    simp [run_site_scraping, h1, h2, h3, h4, h5, hk, hm, hb]
  refine ⟨rfl, rfl, hb, houtcome, ?_, ?_, ?_⟩
  · intro k p d
    simp [run_site_scraping, h1, h2, h3, h4, h5, hk, hm, hb]
  · simp [houtcome, recordsOfOutcome]
  · intro outs
    rw [houtcome]
    have hcr : collectRecords rate req
        (SiteOutcome.exn
          "TypeError: extract_meli_details() takes 6 positional arguments but 8 were given"
          :: outs)
        = collectRecords rate req outs := by
      simp [collectRecords, recordsOfOutcome]
    unfold finalEvent
    rw [hcr]

/-- C10 witness: a mercadolibre task that reaches the detail phase ends in
the nine-versus-six `TypeError`. -/
theorem claim_C10_witness :
    envMeliReady.checkResult = .ok (some true)
    ∧ pythonCallBindsOk meliParams 0 moduleCallPositional moduleCallKeywords = false
    ∧ (run_site_scraping reqBase "mercadolibre" "https://www.mercadolibre.com.ar/"
        envMeliReady).outcome
        = .exn "TypeError: extract_meli_details() takes 6 positional arguments but 8 were given" :=
  ⟨rfl,
    (claim_C10 reqBase "https://www.mercadolibre.com.ar/" envMeliReady 1
      (meliNavInstr "toyota" "corolla" 2021) (some "https://autos.mercadolibre.com.ar/x")
      rfl (by rfl) rfl rfl rfl).2.2.1,
    (claim_C10 reqBase "https://www.mercadolibre.com.ar/" envMeliReady 1
      (meliNavInstr "toyota" "corolla" 2021) (some "https://autos.mercadolibre.com.ar/x")
      rfl (by rfl) rfl rfl rfl).2.2.2.1⟩

/-! ## Claim C1 -/

/-- C1: with two configured sites where one task's guarded navigation
`execute` raises immediately and the other (a kavak task) completes normally
with four reconciled records, the failure is caught at that call's boundary:
the failing task emits exactly one error event and returns the `ERROR`
sentinel; the healthy task — a separate function of its own oracle, hence
unaffected — returns its four records and emits no error event; and the
final aggregated event has status `success` and carries exactly the four
normalized records of the healthy site. -/
theorem claim_C1 (req : ScrapeRequest) (rate : ℚ) (urlM urlK : String)
    (envF envH : SiteEnv) (failMsg instrF instrH : String)
    (hF1 : envF.startup = .ok ())
    (hF2 : get_full_navigation_instruction "mercadolibre" req.brand req.model req.year
            req.version (navTemplateFor req "mercadolibre") = .ok instrF)
    (hF3 : envF.executeNav = .error failMsg)
    (hH1 : envH.startup = .ok ())
    (hH2 : get_full_navigation_instruction "kavak" req.brand req.model req.year
            req.version (navTemplateFor req "kavak") = .ok instrH)
    (hH3 : envH.executeNav = .ok ())
    (hH4 : envH.checkResult = .ok (some true))
    (hH5 : ∃ u, envH.urlResult = .ok u)
    (hH6 : (extract_kavak_details 5 envH.kavak).items.length = 4) :
    errorCount (run_site_scraping req "mercadolibre" urlM envF).events = 1
    ∧ (run_site_scraping req "mercadolibre" urlM envF).outcome = .errorSentinel
    ∧ (run_site_scraping req "kavak" urlK envH).outcome
        = .ok "kavak" (extract_kavak_details 5 envH.kavak).items
    ∧ errorCount (run_site_scraping req "kavak" urlK envH).events = 0
    ∧ (finalEvent rate req [(run_site_scraping req "mercadolibre" urlM envF).outcome,
          (run_site_scraping req "kavak" urlK envH).outcome]).status = "success"
    ∧ (finalEvent rate req [(run_site_scraping req "mercadolibre" urlM envF).outcome,
          (run_site_scraping req "kavak" urlK envH).outcome]).data
        = ((extract_kavak_details 5 envH.kavak).items).map (mkRecord rate req "kavak")
    ∧ (finalEvent rate req [(run_site_scraping req "mercadolibre" urlM envF).outcome,
          (run_site_scraping req "kavak" urlK envH).outcome]).data.length = 4 := by
  obtain ⟨u, hH5⟩ := hH5
  have hkk : containsSub "kavak" "kavak" = true := by rfl
  have hbk : pythonCallBindsOk kavakParams 3 moduleCallPositional moduleCallKeywords = true := by
    rfl
  have hcF : errorCount (run_site_scraping req "mercadolibre" urlM envF).events = 1 := by
    simp [run_site_scraping, hF1, hF2, hF3, errorCount_append, errorCount_status_cons,
      errorCount_error_cons, errorCount_nil]
  have hoF : (run_site_scraping req "mercadolibre" urlM envF).outcome = .errorSentinel := by
    simp [run_site_scraping, hF1, hF2, hF3]
  have hoH : (run_site_scraping req "kavak" urlK envH).outcome
      = .ok "kavak" (extract_kavak_details 5 envH.kavak).items := by
    simp [run_site_scraping, hH1, hH2, hH3, hH4, hH5, hkk, hbk, finishTask]
  have hcH : errorCount (run_site_scraping req "kavak" urlK envH).events = 0 := by
    simp [run_site_scraping, hH1, hH2, hH3, hH4, hH5, hkk, hbk, finishTask,
      errorCount_append, errorCount_status_cons, errorCount_error_cons, errorCount_nil,
      errorCount_ite_status, errorCount_map_prefixEvent, errorCount_kavakModule]
  have hrecs : collectRecords rate req
      [(run_site_scraping req "mercadolibre" urlM envF).outcome,
       (run_site_scraping req "kavak" urlK envH).outcome]
      = ((extract_kavak_details 5 envH.kavak).items).map (mkRecord rate req "kavak") := by
    simp [hoF, hoH, collectRecords, recordsOfOutcome]
  have hlen : (((extract_kavak_details 5 envH.kavak).items).map
      (mkRecord rate req "kavak")).length = 4 := by
    rw [List.length_map, hH6]
  have hempty : (((extract_kavak_details 5 envH.kavak).items).map
      (mkRecord rate req "kavak")).isEmpty = false := by
    cases hmap : ((extract_kavak_details 5 envH.kavak).items).map
        (mkRecord rate req "kavak") with
    | nil => rw [hmap] at hlen; simp at hlen
    | cons a l => rfl
  refine ⟨hcF, hoF, hoH, hcH, ?_, ?_, ?_⟩
  · simp [finalEvent, hrecs, hempty]
  · simp [finalEvent, hrecs, hempty]
  · simp [finalEvent, hrecs, hempty, hlen]

/-- C1 witness: a failing mercadolibre task plus a healthy kavak task with
four reconciled vehicles. -/
theorem claim_C1_witness :
    envExecFail.executeNav = .error "Agent session crashed"
    ∧ (extract_kavak_details 5 envOkKavak.kavak).items.length = 4
    ∧ errorCount (run_site_scraping reqBase "mercadolibre"
        "https://www.mercadolibre.com.ar/" envExecFail).events = 1
    ∧ (finalEvent 1 reqBase
        [(run_site_scraping reqBase "mercadolibre" "https://www.mercadolibre.com.ar/"
            envExecFail).outcome,
         (run_site_scraping reqBase "kavak" "https://www.kavak.com/ar"
            envOkKavak).outcome]).status = "success"
    ∧ (finalEvent 1 reqBase
        [(run_site_scraping reqBase "mercadolibre" "https://www.mercadolibre.com.ar/"
            envExecFail).outcome,
         (run_site_scraping reqBase "kavak" "https://www.kavak.com/ar"
            envOkKavak).outcome]).data.length = 4 :=
  ⟨rfl, by rfl,
    (claim_C1 reqBase 1 "https://www.mercadolibre.com.ar/" "https://www.kavak.com/ar"
      envExecFail envOkKavak "Agent session crashed"
      (meliNavInstr "toyota" "corolla" 2021) (kavakNavInstr "toyota" "corolla" 2021)
      rfl (by rfl) rfl rfl (by rfl) rfl rfl
      ⟨some "https://www.kavak.com/ar/usados", rfl⟩ (by rfl)).1,
    (claim_C1 reqBase 1 "https://www.mercadolibre.com.ar/" "https://www.kavak.com/ar"
      envExecFail envOkKavak "Agent session crashed"
      (meliNavInstr "toyota" "corolla" 2021) (kavakNavInstr "toyota" "corolla" 2021)
      rfl (by rfl) rfl rfl (by rfl) rfl rfl
      ⟨some "https://www.kavak.com/ar/usados", rfl⟩ (by rfl)).2.2.2.2.1,
    (claim_C1 reqBase 1 "https://www.mercadolibre.com.ar/" "https://www.kavak.com/ar"
      envExecFail envOkKavak "Agent session crashed"
      (meliNavInstr "toyota" "corolla" 2021) (kavakNavInstr "toyota" "corolla" 2021)
      rfl (by rfl) rfl rfl (by rfl) rfl rfl
      ⟨some "https://www.kavak.com/ar/usados", rfl⟩ (by rfl)).2.2.2.2.2.2⟩

/-! ## Claim C9: channel lemmas -/

theorem msum_set (ts : List (List Event)) (i : Nat) (e : Event) (rest : List Event)
    (h : ts.get? i = some (e :: rest)) :
    (↑[e] : Multiset Event) + ↑((ts.set i rest).flatten) = (↑ts.flatten : Multiset Event) := by
  induction ts generalizing i with
  | nil => simp at h
  | cons t tl ih =>
    cases i with
    | zero =>
      simp only [List.get?] at h
      injection h with h
      subst h
      rw [Multiset.coe_add]
      rfl
    | succ j =>
      simp only [List.get?] at h
      show (↑[e] : Multiset Event) + ↑(t ++ (tl.set j rest).flatten) = ↑(t ++ tl.flatten)
      rw [← Multiset.coe_add, ← Multiset.coe_add, add_left_comm, Multiset.coe_add]
      congr 1
      exact ih j h

theorem chanStep_total (s s' : ChanState) (h : ChanStep s s') :
    chanTotal s' = chanTotal s := by
  cases h with
  | produce i e rest h =>
    simp only [chanTotal]
    simp only [← Multiset.coe_add]
    rw [← msum_set s.tasks i e rest h]
    abel
  | consume e q h =>
    simp only [chanTotal, h]
    simp only [← Multiset.coe_add]
    have hq : (↑[e] : Multiset Event) + ↑q = ((e :: q : List Event) : Multiset Event) :=
      Multiset.coe_add [e] q
    rw [← hq]
    abel
  | finish ht hq hf =>
    rfl

/-- Once the terminal event is sent, every producer had finished and the
queue was empty. -/
def allDone (s : ChanState) : Prop :=
  (∀ t ∈ s.tasks, t = []) ∧ s.queue = []

theorem chanStep_finalClean (s s' : ChanState) (h : ChanStep s s')
    (hc : s.finalSent = true → allDone s) : s'.finalSent = true → allDone s' := by
  cases h with
  | produce i e rest h =>
    intro hf
    exfalso
    have hmem : (e :: rest) ∈ s.tasks := List.get?_mem h
    have := (hc hf).1 _ hmem
    simp at this
  | consume e q h =>
    intro hf
    have := (hc hf).2
    rw [this] at h
    simp at h
  | finish ht hq hf =>
    intro _
    exact ⟨ht, hq⟩

theorem flatten_nil_of_all (L : List (List Event)) (h : ∀ t ∈ L, t = []) :
    L.flatten = [] := by
  induction L with
  | nil => rfl
  | cons t tl ih =>
    rw [List.flatten_cons, h t (List.mem_cons_self _ _),
      ih (fun x hx => h x (List.mem_cons_of_mem _ hx))]
    rfl

theorem chanReachable_total (ts : List (List Event)) (s : ChanState)
    (h : ChanReachable ts s) :
    chanTotal s = (↑ts.flatten : Multiset Event) := by
  induction h with
  | refl => rfl
  | tail hab hbc ih => rw [chanStep_total _ _ hbc]; exact ih

theorem chanReachable_finalClean (ts : List (List Event)) (s : ChanState)
    (h : ChanReachable ts s) : s.finalSent = true → allDone s := by
  induction h with
  | refl => intro hf; simp [chanInit] at hf
  | tail hab hbc ih => exact chanStep_finalClean _ _ hbc ih

/-- C9: in every execution of the progress channel that has emitted the
terminal event, the delivered trace is — as a multiset — exactly the events
the site-task producers enqueued: each is delivered exactly once, and all of
them before the terminal event (which is only enabled once every producer has
finished and the queue is drained).  Producers never block: the enqueue step
is enabled whenever a producer has a pending event, with no condition on the
queue; and the drain loop can terminate as soon as all producers are done and
the queue is empty. -/
theorem claim_C9 (ts : List (List Event)) (s : ChanState)
    (hreach : ChanReachable ts s) (hfin : s.finalSent = true) :
    (s.delivered : Multiset Event) = (↑ts.flatten : Multiset Event)
    ∧ (∀ (st : ChanState) (i : Nat) (e : Event) (rest : List Event),
        st.tasks.get? i = some (e :: rest) →
        ChanStep st { st with tasks := st.tasks.set i rest, queue := st.queue ++ [e] })
    ∧ (∀ st : ChanState, (∀ t ∈ st.tasks, t = []) → st.queue = [] → st.finalSent = false →
        ChanStep st { st with finalSent := true }) := by
  have htot := chanReachable_total ts s hreach
  have hclean := chanReachable_finalClean ts s hreach hfin
  refine ⟨?_, ?_, ?_⟩
  · have hfl : s.tasks.flatten = [] := flatten_nil_of_all _ hclean.1
    rw [← htot]
    simp [chanTotal, hclean.2, hfl]
  · intro st i e rest h
    exact ChanStep.produce st i e rest h
  · intro st ht hq hf
    exact ChanStep.finish st ht hq hf

/-- C9 witness: a concrete two-producer run — produce, produce, deliver,
deliver, terminal event — whose delivered trace is exactly the two produced
events. -/
theorem claim_C9_witness :
    ChanReachable c9ts c9final
    ∧ c9final.finalSent = true
    ∧ (c9final.delivered : Multiset Event) = (↑c9ts.flatten : Multiset Event) := by
  have h1 : ChanStep (chanInit c9ts) c9s1 := ChanStep.produce _ 0 _ _ rfl
  have h2 : ChanStep c9s1 c9s2 := ChanStep.produce _ 1 _ _ rfl
  have h3 : ChanStep c9s2 c9s3 := ChanStep.consume _ _ _ rfl
  have h4 : ChanStep c9s3 c9s4 := ChanStep.consume _ _ _ rfl
  have h5 : ChanStep c9s4 c9final := by
    refine ChanStep.finish _ ?_ rfl rfl
    intro t ht
    simp [c9s4] at ht
    simp [ht]
  have hr : ChanReachable c9ts c9final :=
    Relation.ReflTransGen.head h1 (Relation.ReflTransGen.head h2
      (Relation.ReflTransGen.head h3 (Relation.ReflTransGen.head h4
        (Relation.ReflTransGen.head h5 Relation.ReflTransGen.refl))))
  exact ⟨hr, rfl, (claim_C9 c9ts c9final hr rfl).1⟩

/-- C7 witness: the amended theorem applied to the template made of the
single unbound placeholder `brand`, and the bound-placeholder case applied to
a template rendering a URL with the brand substituted. -/
theorem claim_C7_witness :
    navTemplateFor reqTemplate "kavak" = some [TmplPart.var "brand"]
    ∧ pyFormat [TmplPart.var "brand"]
        [("marca", "toyota"), ("modelo", "corolla"), ("anio", "2021"), ("version", "1.8")]
        = .error "brand"
    ∧ (run_site_scraping reqTemplate "kavak" "https://www.kavak.com/ar" envOkKavak).outcome
        = .exn "KeyError: brand"
    ∧ get_full_navigation_instruction "kavak" "toyota" "corolla" 2021 "1.8"
        (some [TmplPart.lit "http://x/", TmplPart.var "marca"]) = .ok "http://x/toyota" :=
  ⟨rfl, rfl,
    (claim_C7 reqTemplate "kavak" "https://www.kavak.com/ar" envOkKavak
      [TmplPart.var "brand"] "brand" rfl rfl (by simp) rfl).1,
    (claim_C7 reqTemplate "kavak" "https://www.kavak.com/ar" envOkKavak
      [TmplPart.var "brand"] "brand" rfl rfl (by simp) rfl).2.2.2.2.2
      [TmplPart.lit "http://x/", TmplPart.var "marca"] "http://x/toyota" (by simp) rfl⟩

end Valuador
